import Mathlib

/-!
Verification development for the ProViewer application (`main_app.py`).

The file shallowly embeds the non-trivial logic of the app:

* `get_average_plddt` — the confidence scorer (structure parsing is done by
  the external Biopython library, so the parser appears as an explicit
  function parameter whose result is `none` on a parse exception and
  `some bfactors` on success; B-factors, Python floats, are embedded as `Rat`);
* `make_viewer_key` — the Mol* widget key derivation, with a full embedding
  of the MD5 digest (the source calls `hashlib.md5`) and of UTF-8 encoding;
* the three acquisition flows' submit and clear handlers, as explicit
  transitions on a `SessionState` record mirroring `st.session_state`;
  HTTP is embedded as an outcome value (network error, or a status code
  together with the decoded body, `none` when the body does not decode);
* the `st.cache_data` memoization on `fold_protein`, as an explicit
  association list threaded through the predict submit handler.
-/

/-- MAX_SEQUENCE_LENGTH constant of `main_app.py`. -/
def MAX_SEQUENCE_LENGTH : Nat := 400

/-- DEFAULT_SEQ constant of `main_app.py`. -/
def DEFAULT_SEQ : String := "PIAQIHILEGRSDEQKETLIREVSEAISRSLDAPLTSVRVIITEMAKGHFGIGGELASK"

/-- ASCII lower-casing of a string; embeds Python `str.lower()` (the format
tags of interest are ASCII). -/
def pyLower (s : String) : String := String.mk (s.data.map Char.toLower)

/-- Result of `get_average_plddt`: the Python function returns a float, or
`None`, or raises `ValueError` on an unknown format tag. -/
inductive PlddtResult
  | raised
  | unavailable
  | score (v : Rat)
deriving DecidableEq

/-- Lines 77-85 of `main_app.py`: from the atom B-factor list, return `None`
when empty, otherwise the mean, multiplied by 100 when it is at most 1. -/
def plddt_of_bfactors (b_factors : List Rat) : PlddtResult :=
  if b_factors.isEmpty then .unavailable
  else
    let avg_plddt := b_factors.sum / (b_factors.length : Rat)
    .score (if avg_plddt ≤ 1 then avg_plddt * 100 else avg_plddt)

/-- `get_average_plddt` of `main_app.py` (lines 51-85).  `parsePDB` and
`parseCIF` embed `PDBParser.get_structure` / `MMCIFParser.get_structure`
followed by the atom B-factor extraction: `none` models the parser raising
(caught at line 74), `some bs` the extracted B-factors. -/
def get_average_plddt (parsePDB parseCIF : String → Option (List Rat))
    (structure_str fmt : String) : PlddtResult :=
  if pyLower fmt = "pdb" then
    match parsePDB structure_str with
    | none => .unavailable
    | some bs => plddt_of_bfactors bs
  else if pyLower fmt = "cif" then
    match parseCIF structure_str with
    | none => .unavailable
    | some bs => plddt_of_bfactors bs
  else .raised

/-- The safety contract the spec states for the scorer's result: a score in
the range 0 to 100, or the unavailable sentinel; never a raised exception. -/
def resultSafe : PlddtResult → Bool
  | .raised => false
  | .unavailable => true
  | .score v => decide (0 ≤ v) && decide (v ≤ 100)

/-- Session-state entry stored by the AlphaFold DB tab (lines 242-245). -/
structure AFRecord where
  content : String
  id : String
deriving DecidableEq

/-- The file uploader widget's value: a file name and its decoded content. -/
structure UploadedFile where
  name : String
  content : String
deriving DecidableEq

/-- The `st.session_state` fields used by `main_app.py`: the three flows'
stored records plus the pending input-widget states. -/
structure SessionState where
  predicted_content : Option String
  uploaded_content : Option String
  uploaded_format : Option String
  af_structure : Option AFRecord
  predict_sequence : String
  uniprot_id : String
  file_uploader : Option UploadedFile
deriving DecidableEq

/-- A session state with nothing stored and empty inputs. -/
def emptySession : SessionState :=
  { predicted_content := none, uploaded_content := none, uploaded_format := none,
    af_structure := none, predict_sequence := "", uniprot_id := "", file_uploader := none }

/-- Clear button of the predict tab (lines 166-169): pops `predicted_content`. -/
def clear_predict_handler (s : SessionState) : SessionState :=
  { s with predicted_content := none }

/-- Clear button of the upload tab (lines 198-209): pops `uploaded_content`,
`uploaded_format`, and also resets the uploader widget state `file_uploader`. -/
def clear_upload_handler (s : SessionState) : SessionState :=
  { s with uploaded_content := none, uploaded_format := none, file_uploader := none }

/-- Clear button of the AlphaFold DB tab (lines 265-268): pops `af_structure`. -/
def clear_afdb_handler (s : SessionState) : SessionState :=
  { s with af_structure := none }

/-- Outcome of an HTTP request: a network-level error (a
`requests.RequestException` other than `HTTPError`), or a response with a
status code and a body; the body is `none` when `bytes.decode` raises. -/
inductive HttpOutcome
  | netError
  | response (status : Nat) (body : Option String)
deriving DecidableEq

/-- `Response.raise_for_status` raises `HTTPError` exactly for 4xx and 5xx
status codes. -/
def raise_for_status_fails (status : Nat) : Bool :=
  400 ≤ status && status < 600

/-- Result of one execution of the body of `fold_protein`: the returned
value, whether `st.error` was shown, and whether an exception escaped
(a `UnicodeDecodeError` is not a `requests.RequestException`, so the
`except` clause at line 111 does not catch it). -/
structure FoldResult where
  ret : Option String
  errorShown : Bool
  raised : Bool
deriving DecidableEq

/-- `fold_protein` of `main_app.py` (lines 95-113), one uncached execution. -/
def fold_protein (http : HttpOutcome) : FoldResult :=
  match http with
  | .netError => ⟨none, true, false⟩
  | .response status body =>
    if raise_for_status_fails status then ⟨none, true, false⟩
    else
      match body with
      | none => ⟨none, false, true⟩
      | some c => ⟨some c, false, false⟩

/-- The `st.cache_data` store for `fold_protein`, keyed by the exact
sequence string; a cached value is the function's return value. -/
def cacheLookup (cache : List (String × Option String)) (seq : String) :
    Option (Option String) :=
  match cache with
  | [] => none
  | (k, v) :: rest => if k = seq then some v else cacheLookup rest seq

/-- Python truthiness of an optional string (`if pdb_content:` at line 149):
`None` and the empty string are falsy. -/
def truthy : Option String → Bool
  | none => false
  | some c => !c.isEmpty

/-- Result of the predict tab's submit handler: the session state, the
cache store, whether a network call was made, whether `st.warning` or
`st.error` was shown, and whether an exception escaped. -/
structure PredictOutcome where
  state : SessionState
  cache : List (String × Option String)
  networkCalled : Bool
  warned : Bool
  errored : Bool
  raised : Bool
deriving DecidableEq

/-- Submit handler of the predict tab (lines 142-150).  `sequence` is the
already-stripped text-area value; `http` is the outcome the ESMFold endpoint
would give if called.  A cache hit returns the memoized value without any
network call; on a fresh execution the return value (also `None` from the
caught error paths) is stored in the cache, except when an exception
escapes, in which case nothing is cached. -/
def tab_predict_submit (http : HttpOutcome) (cache : List (String × Option String))
    (sequence : String) (s : SessionState) : PredictOutcome :=
  if sequence = "" then ⟨s, cache, false, true, false, false⟩
  else if MAX_SEQUENCE_LENGTH < sequence.length then ⟨s, cache, false, false, true, false⟩
  else
    match cacheLookup cache sequence with
    | some v =>
      ⟨if truthy v then { s with predicted_content := v } else s,
       cache, false, false, false, false⟩
    | none =>
      let r := fold_protein http
      if r.raised then ⟨s, cache, true, false, false, true⟩
      else
        ⟨if truthy r.ret then { s with predicted_content := r.ret } else s,
         (sequence, r.ret) :: cache, true, false, r.errorShown, false⟩

/-- Result of the AlphaFold tab's submit handler. -/
structure FetchOutcome where
  state : SessionState
  errorShown : Bool
  raised : Bool
deriving DecidableEq

/-- Submit handler of the AlphaFold DB tab (lines 237-247).  `uniprot_id` is
the already-stripped input; the guard `if submit_fetch and uniprot_id:` makes
an empty id a no-op.  `except requests.RequestException` catches network
errors and `raise_for_status` errors and shows `st.error`; a body decode
failure escapes uncaught. -/
def tab_fetch_submit (http : HttpOutcome) (uniprot_id : String)
    (s : SessionState) : FetchOutcome :=
  if uniprot_id = "" then ⟨s, false, false⟩
  else
    match http with
    | .netError => ⟨s, true, false⟩
    | .response status body =>
      if raise_for_status_fails status then ⟨s, true, false⟩
      else
        match body with
        | none => ⟨s, false, true⟩
        | some c => ⟨{ s with af_structure := some ⟨c, uniprot_id⟩ }, false, false⟩

/-- Bitwise complement within 32 bits. -/
def not32 (x : Nat) : Nat := x ^^^ 0xFFFFFFFF

/-- Rotate the low 32 bits of `x` left by `s`. -/
def rotl32 (x s : Nat) : Nat :=
  ((x % 4294967296) * 2 ^ s + (x % 4294967296) / 2 ^ (32 - s)) % 4294967296

/-- MD5 per-round left-rotation amounts (RFC 1321). -/
def MD5_S : List Nat :=
  [7, 12, 17, 22, 7, 12, 17, 22, 7, 12, 17, 22, 7, 12, 17, 22,
   5, 9, 14, 20, 5, 9, 14, 20, 5, 9, 14, 20, 5, 9, 14, 20,
   4, 11, 16, 23, 4, 11, 16, 23, 4, 11, 16, 23, 4, 11, 16, 23,
   6, 10, 15, 21, 6, 10, 15, 21, 6, 10, 15, 21, 6, 10, 15, 21]

/-- MD5 sine-derived additive constants (RFC 1321). -/
def MD5_K : List Nat :=
  [0xd76aa478, 0xe8c7b756, 0x242070db, 0xc1bdceee,
   0xf57c0faf, 0x4787c62a, 0xa8304613, 0xfd469501,
   0x698098d8, 0x8b44f7af, 0xffff5bb1, 0x895cd7be,
   0x6b901122, 0xfd987193, 0xa679438e, 0x49b40821,
   0xf61e2562, 0xc040b340, 0x265e5a51, 0xe9b6c7aa,
   0xd62f105d, 0x02441453, 0xd8a1e681, 0xe7d3fbc8,
   0x21e1cde6, 0xc33707d6, 0xf4d50d87, 0x455a14ed,
   0xa9e3e905, 0xfcefa3f8, 0x676f02d9, 0x8d2a4c8a,
   0xfffa3942, 0x8771f681, 0x6d9d6122, 0xfde5380c,
   0xa4beea44, 0x4bdecfa9, 0xf6bb4b60, 0xbebfbc70,
   0x289b7ec6, 0xeaa127fa, 0xd4ef3085, 0x04881d05,
   0xd9d4d039, 0xe6db99e5, 0x1fa27cf8, 0xc4ac5665,
   0xf4292244, 0x432aff97, 0xab9423a7, 0xfc93a039,
   0x655b59c3, 0x8f0ccc92, 0xffeff47d, 0x85845dd1,
   0x6fa87e4f, 0xfe2ce6e0, 0xa3014314, 0x4e0811a1,
   0xf7537e82, 0xbd3af235, 0x2ad7d2bb, 0xeb86d391]

/-- One of the 64 MD5 steps, acting on the register quadruple. -/
def md5Round (M : List Nat) (st : Nat × Nat × Nat × Nat) (i : Nat) :
    Nat × Nat × Nat × Nat :=
  let a := st.1
  let b := st.2.1
  let c := st.2.2.1
  let d := st.2.2.2
  let fg : Nat × Nat :=
    if i < 16 then ((b &&& c) ||| (not32 b &&& d), i)
    else if i < 32 then ((d &&& b) ||| (not32 d &&& c), (5 * i + 1) % 16)
    else if i < 48 then (b ^^^ c ^^^ d, (3 * i + 5) % 16)
    else (c ^^^ (b ||| not32 d), (7 * i) % 16)
  let f := (fg.1 + a + MD5_K.getD i 0 + M.getD fg.2 0) % 4294967296
  (d, (b + rotl32 f (MD5_S.getD i 0)) % 4294967296, b, c)

/-- The eight little-endian bytes of a 64-bit length field. -/
def word64LEBytes (n : Nat) : List Nat :=
  [n % 256, n / 256 % 256, n / 65536 % 256, n / 16777216 % 256,
   n / 4294967296 % 256, n / 1099511627776 % 256,
   n / 281474976710656 % 256, n / 72057594037927936 % 256]

/-- The four little-endian bytes of a 32-bit word. -/
def word32LEBytes (n : Nat) : List Nat :=
  [n % 256, n / 256 % 256, n / 65536 % 256, n / 16777216 % 256]

/-- MD5 padding: append `0x80`, zero bytes up to 56 mod 64, then the bit
length as a little-endian 64-bit field. -/
def md5Pad (msg : List Nat) : List Nat :=
  let len := msg.length
  let padZeros := (55 + 64 - len % 64) % 64
  msg ++ [128] ++ List.replicate padZeros 0 ++ word64LEBytes ((8 * len) % 18446744073709551616)

/-- The j-th little-endian 32-bit word of a 64-byte block. -/
def le32At (block : List Nat) (j : Nat) : Nat :=
  block.getD (4 * j) 0 + 256 * block.getD (4 * j + 1) 0 +
    65536 * block.getD (4 * j + 2) 0 + 16777216 * block.getD (4 * j + 3) 0

/-- The sixteen message words of one block. -/
def blockWords (block : List Nat) : List Nat :=
  (List.range 16).map (le32At block)

/-- Process one 64-byte block. -/
def md5ProcessBlock (st : Nat × Nat × Nat × Nat) (block : List Nat) :
    Nat × Nat × Nat × Nat :=
  let M := blockWords block
  let r := (List.range 64).foldl (md5Round M) st
  ((st.1 + r.1) % 4294967296, (st.2.1 + r.2.1) % 4294967296,
   (st.2.2.1 + r.2.2.1) % 4294967296, (st.2.2.2 + r.2.2.2) % 4294967296)

/-- Split a byte list into 64-byte chunks; the fuel argument (instantiated
with the list length, which bounds the number of chunks) makes the recursion
structural so that proofs can evaluate the function. -/
def chunks64Go : Nat → List Nat → List (List Nat)
  | _, [] => []
  | 0, _ => []
  | fuel + 1, l => l.take 64 :: chunks64Go fuel (l.drop 64)

/-- Split a byte list into 64-byte chunks. -/
def chunks64 (l : List Nat) : List (List Nat) := chunks64Go l.length l

/-- MD5 initial register values. -/
def md5Init : Nat × Nat × Nat × Nat :=
  (0x67452301, 0xefcdab89, 0x98badcfe, 0x10325476)

/-- The sixteen digest bytes of the MD5 of a byte list. -/
def md5digestBytes (msg : List Nat) : List Nat :=
  let st := (chunks64 (md5Pad msg)).foldl md5ProcessBlock md5Init
  word32LEBytes st.1 ++ word32LEBytes st.2.1 ++
    word32LEBytes st.2.2.1 ++ word32LEBytes st.2.2.2

/-- Lower-case hexadecimal digit. -/
def hexDigit (n : Nat) : Char :=
  if n < 10 then Char.ofNat (48 + n) else Char.ofNat (87 + n)

/-- Two hex characters of one byte. -/
def byteToHex (b : Nat) : List Char :=
  [hexDigit (b / 16), hexDigit (b % 16)]

/-- Hex characters of a byte list. -/
def hexOfBytes : List Nat → List Char
  | [] => []
  | b :: bs => byteToHex b ++ hexOfBytes bs

/-- `hashlib.md5(...).hexdigest()`: the 32-character hex string. -/
def md5hex (msg : List Nat) : String :=
  String.mk (hexOfBytes (md5digestBytes msg))

/-- UTF-8 encoding of one character. -/
def utf8Char (c : Char) : List Nat :=
  let n := c.toNat
  if n < 128 then [n]
  else if n < 2048 then [192 + n / 64, 128 + n % 64]
  else if n < 65536 then [224 + n / 4096, 128 + n / 64 % 64, 128 + n % 64]
  else [240 + n / 262144, 128 + n / 4096 % 64, 128 + n / 64 % 64, 128 + n % 64]

/-- UTF-8 encoding of a character list. -/
def utf8Encode : List Char → List Nat
  | [] => []
  | c :: cs => utf8Char c ++ utf8Encode cs

/-- Python `str.encode("utf-8")`. -/
def utf8EncodeStr (s : String) : List Nat := utf8Encode s.data

/-- The 12 hex characters `hashlib.md5((fmt + ":" + content).encode("utf-8")).hexdigest()[:12]`
of `make_viewer_key` (line 92). -/
def viewer_digest (content fmt : String) : List Char :=
  (hexOfBytes (md5digestBytes (utf8EncodeStr (fmt ++ ":" ++ content)))).take 12

/-- `make_viewer_key` of `main_app.py` (lines 87-93); `label` is the
`prefix` parameter of the source. -/
def make_viewer_key (label content fmt : String) : String :=
  "molstar-" ++ label ++ "-" ++ fmt ++ "-" ++ String.mk (viewer_digest content fmt)

/-- Value of a little-endian byte list as a number (used to count the
possible truncated digests). -/
def bytesToNat : List Nat → Nat
  | [] => 0
  | b :: bs => b + 256 * bytesToNat bs

/-- A 401-character amino-acid sequence, one character over the limit. -/
def longSeq : String := String.mk (List.replicate 401 'A')

/-- A session holding a previously fetched AlphaFold record. -/
def priorFetchSession : SessionState :=
  { emptySession with af_structure := some ⟨"OLDCIF", "P12345"⟩ }

/-- A session holding an uploaded structure together with the uploader
widget's pending file selection. -/
def pendingUploadSession : SessionState :=
  { emptySession with
    uploaded_content := some "DATA",
    uploaded_format := some "pdb",
    file_uploader := some ⟨"structure.pdb", "DATA"⟩ }

/-! ## Helper lemmas -/

theorem list_sum_nonneg_rat (l : List Rat) (h : ∀ x ∈ l, 0 ≤ x) : 0 ≤ l.sum := by
  induction l with
  | nil => simp
  | cons a t ih =>
    simp only [List.sum_cons]
    have ha := h a (by simp)
    have ht := ih (fun x hx => h x (by simp [hx]))
    linarith

theorem list_sum_le_hundred_mul (l : List Rat) (h : ∀ x ∈ l, x ≤ 100) :
    l.sum ≤ 100 * (l.length : Rat) := by
  induction l with
  | nil => simp
  | cons a t ih =>
    simp only [List.sum_cons, List.length_cons]
    have ha := h a (by simp)
    have ht := ih (fun x hx => h x (by simp [hx]))
    push_cast
    linarith

theorem plddt_of_bfactors_ne_raised (bs : List Rat) :
    plddt_of_bfactors bs ≠ PlddtResult.raised := by
  unfold plddt_of_bfactors
  split <;> simp

theorem plddt_of_bfactors_unavailable_iff (bs : List Rat) :
    plddt_of_bfactors bs = PlddtResult.unavailable ↔ bs = [] := by
  rcases bs with _ | ⟨a, t⟩
  · simp [plddt_of_bfactors]
  · simp [plddt_of_bfactors]

theorem plddt_of_bfactors_range (bs : List Rat) (hb : ∀ b ∈ bs, 0 ≤ b ∧ b ≤ 100) (v : Rat)
    (hv : plddt_of_bfactors bs = PlddtResult.score v) : 0 ≤ v ∧ v ≤ 100 := by
  unfold plddt_of_bfactors at hv
  by_cases hemp : bs.isEmpty
  · rw [if_pos hemp] at hv
    exact absurd hv (by simp)
  · rw [if_neg hemp] at hv
    simp only [PlddtResult.score.injEq] at hv
    have hne : bs ≠ [] := fun he => hemp (by simp [he])
    have hlen : 0 < (bs.length : Rat) := by
      have h0 : 0 < bs.length := List.length_pos.mpr hne
      exact_mod_cast h0
    have hsum0 : 0 ≤ bs.sum := list_sum_nonneg_rat bs (fun x hx => (hb x hx).1)
    have h0 : 0 ≤ bs.sum / (bs.length : Rat) := div_nonneg hsum0 (le_of_lt hlen)
    have h100 : bs.sum / (bs.length : Rat) ≤ 100 := by
      rw [div_le_iff₀ hlen]
      exact list_sum_le_hundred_mul bs (fun x hx => (hb x hx).2)
    subst hv
    split
    · constructor
      · nlinarith
      · nlinarith
    · exact ⟨h0, h100⟩

theorem plddt_of_bfactors_safe (bs : List Rat) (hb : ∀ b ∈ bs, 0 ≤ b ∧ b ≤ 100) :
    resultSafe (plddt_of_bfactors bs) = true := by
  cases hres : plddt_of_bfactors bs with
  | raised => exact absurd hres (plddt_of_bfactors_ne_raised bs)
  | unavailable => rfl
  | score v =>
    obtain ⟨h0, h100⟩ := plddt_of_bfactors_range bs hb v hres
    simp [resultSafe, h0, h100]

/-! ## Claim theorems -/

/-- C1 (amended): for every structure text and every format tag whose
lower-cased form is `pdb` or `cif`, `get_average_plddt` never raises, and it
returns either the unavailable sentinel or a float that lies in [0,100]
whenever the per-atom confidence values delivered by the parser all lie in
[0,100].  (As stated the claim is false: an unknown format tag raises
`ValueError`, and out-of-range B-factors produce an out-of-range mean; see
the counterexample.) -/
theorem get_average_plddt_safe (parsePDB parseCIF : String → Option (List Rat))
    (T fmt : String)
    (hfmt : pyLower fmt = "pdb" ∨ pyLower fmt = "cif")
    (hP : ∀ bs, parsePDB T = some bs → ∀ b ∈ bs, 0 ≤ b ∧ b ≤ 100)
    (hC : ∀ bs, parseCIF T = some bs → ∀ b ∈ bs, 0 ≤ b ∧ b ≤ 100) :
    resultSafe (get_average_plddt parsePDB parseCIF T fmt) = true := by
  unfold get_average_plddt
  rcases hfmt with h | h
  · rw [h, if_pos rfl]
    cases hPT : parsePDB T with
    | none => rfl
    | some bs => exact plddt_of_bfactors_safe bs (hP bs hPT)
  · rw [h, if_neg (by decide), if_pos rfl]
    cases hCT : parseCIF T with
    | none => rfl
    | some bs => exact plddt_of_bfactors_safe bs (hC bs hCT)

/-- Witness for C1: a parser returning a single in-range B-factor under the
format tag `PDB` (upper case, lowered by the function). -/
theorem get_average_plddt_safe_witness :
    resultSafe (get_average_plddt (fun _ => some [50]) (fun _ => none) "" "PDB") = true :=
  get_average_plddt_safe (fun _ => some [50]) (fun _ => none) "" "PDB"
    (Or.inl (by decide))
    (by
      intro bs hbs b hb
      have hbs' : [(50 : Rat)] = bs := by simpa using hbs
      subst hbs'
      simp at hb
      subst hb
      norm_num)
    (by intro bs hbs; simp at hbs)

/-- Counterexample for C1 as stated: the format tag `xyz` raises
`ValueError` instead of returning a value, and a parsed structure whose
single B-factor is 150 yields the score 150, outside [0,100]. -/
theorem get_average_plddt_raises_on_bad_format :
    get_average_plddt (fun _ => none) (fun _ => none) "" "xyz" = PlddtResult.raised ∧
    get_average_plddt (fun _ => some [150]) (fun _ => none) "" "pdb" =
      PlddtResult.score 150 ∧
    ¬ ((150 : Rat) ≤ 100) := by
  refine ⟨by decide, ?_, by norm_num⟩
  unfold get_average_plddt
  rw [show pyLower "pdb" = "pdb" from by decide, if_pos rfl]
  show plddt_of_bfactors [150] = PlddtResult.score 150
  unfold plddt_of_bfactors
  norm_num

/-- C2: whenever the parser yields a non-empty B-factor list with mean m,
`get_average_plddt` returns 100*m when m ≤ 1 and m otherwise — for the pdb
and the cif branch alike; in particular B-factors averaging 0.8 under cif
score 80, and all-50 B-factors under pdb score 50. -/
theorem get_average_plddt_mean_formula (parsePDB parseCIF : String → Option (List Rat))
    (T : String) (bs : List Rat) (hne : bs ≠ [])
    (hP : parsePDB T = some bs) (hC : parseCIF T = some bs) :
    get_average_plddt parsePDB parseCIF T "pdb" =
      PlddtResult.score (if bs.sum / (bs.length : Rat) ≤ 1
        then 100 * (bs.sum / (bs.length : Rat)) else bs.sum / (bs.length : Rat)) ∧
    get_average_plddt parsePDB parseCIF T "cif" =
      PlddtResult.score (if bs.sum / (bs.length : Rat) ≤ 1
        then 100 * (bs.sum / (bs.length : Rat)) else bs.sum / (bs.length : Rat)) ∧
    get_average_plddt (fun _ => none) (fun _ => some [(7 : Rat)/10, 8/10, 9/10]) "M" "cif" =
      PlddtResult.score 80 ∧
    get_average_plddt (fun _ => some [(50 : Rat), 50]) (fun _ => none) "P" "pdb" =
      PlddtResult.score 50 := by
  have key : plddt_of_bfactors bs =
      PlddtResult.score (if bs.sum / (bs.length : Rat) ≤ 1
        then 100 * (bs.sum / (bs.length : Rat)) else bs.sum / (bs.length : Rat)) := by
    unfold plddt_of_bfactors
    rw [if_neg (by simpa [List.isEmpty_iff] using hne)]
    show PlddtResult.score _ = _
    congr 1
    by_cases h1 : bs.sum / (bs.length : Rat) ≤ 1
    · rw [if_pos h1, if_pos h1, mul_comm]
    · rw [if_neg h1, if_neg h1]
  refine ⟨?_, ?_, ?_, ?_⟩
  · unfold get_average_plddt
    rw [show pyLower "pdb" = "pdb" from by decide, if_pos rfl, hP]
    exact key
  · unfold get_average_plddt
    rw [show pyLower "cif" = "cif" from by decide, if_neg (by decide), if_pos rfl, hC]
    exact key
  · unfold get_average_plddt
    rw [show pyLower "cif" = "cif" from by decide, if_neg (by decide), if_pos rfl]
    show plddt_of_bfactors [(7 : Rat)/10, 8/10, 9/10] = PlddtResult.score 80
    unfold plddt_of_bfactors
    norm_num
  · unfold get_average_plddt
    rw [show pyLower "pdb" = "pdb" from by decide, if_pos rfl]
    show plddt_of_bfactors [(50 : Rat), 50] = PlddtResult.score 50
    unfold plddt_of_bfactors
    norm_num

/-- Witness for C2 at the all-50 scenario. -/
theorem get_average_plddt_mean_formula_witness :
    get_average_plddt (fun _ => some [(50 : Rat), 50]) (fun _ => some [(50 : Rat), 50])
        "P" "pdb" =
      PlddtResult.score (if [(50 : Rat), 50].sum / (([(50 : Rat), 50].length : Nat) : Rat) ≤ 1
        then 100 * ([(50 : Rat), 50].sum / (([(50 : Rat), 50].length : Nat) : Rat))
        else [(50 : Rat), 50].sum / (([(50 : Rat), 50].length : Nat) : Rat)) :=
  (get_average_plddt_mean_formula (fun _ => some [(50 : Rat), 50])
    (fun _ => some [(50 : Rat), 50]) "P" [(50 : Rat), 50] (by decide) rfl rfl).1

/-- C3: under a recognized format tag, `get_average_plddt` returns the
unavailable sentinel exactly when the parser raises (`none`, covering empty
and malformed text) or yields zero atoms; a non-empty all-zero B-factor list
yields the score 0, which is distinct from the sentinel. -/
theorem get_average_plddt_unavailable_iff (parsePDB parseCIF : String → Option (List Rat))
    (T fmt : String) (n : Nat)
    (hfmt : pyLower fmt = "pdb" ∨ pyLower fmt = "cif") (hn : 0 < n) :
    (get_average_plddt parsePDB parseCIF T fmt = PlddtResult.unavailable ↔
      (pyLower fmt = "pdb" ∧ (parsePDB T = none ∨ parsePDB T = some [])) ∨
      (pyLower fmt = "cif" ∧ (parseCIF T = none ∨ parseCIF T = some []))) ∧
    plddt_of_bfactors (List.replicate n 0) = PlddtResult.score 0 ∧
    PlddtResult.score 0 ≠ PlddtResult.unavailable := by
  refine ⟨?_, ?_, by decide⟩
  · rcases hfmt with h | h
    · unfold get_average_plddt
      rw [h, if_pos rfl]
      cases hPT : parsePDB T with
      | none => simp [hPT]
      | some bs => simp [hPT, plddt_of_bfactors_unavailable_iff]
    · unfold get_average_plddt
      rw [h, if_neg (by decide), if_pos rfl]
      cases hCT : parseCIF T with
      | none => simp [hCT]
      | some bs => simp [hCT, plddt_of_bfactors_unavailable_iff]
  · unfold plddt_of_bfactors
    rw [if_neg (by simp [List.isEmpty_iff, hn.ne'])]
    show PlddtResult.score _ = _
    congr 1
    simp

/-- Witness for C3: a parser that always raises, under format tag `pdb`,
and three all-zero B-factors. -/
theorem get_average_plddt_unavailable_iff_witness :
    ((get_average_plddt (fun _ => none) (fun _ => none) "" "pdb" = PlddtResult.unavailable ↔
      (pyLower "pdb" = "pdb" ∧
        ((fun _ : String => (none : Option (List Rat))) "" = none ∨
         (fun _ : String => (none : Option (List Rat))) "" = some [])) ∨
      (pyLower "pdb" = "cif" ∧
        ((fun _ : String => (none : Option (List Rat))) "" = none ∨
         (fun _ : String => (none : Option (List Rat))) "" = some []))) ∧
    plddt_of_bfactors (List.replicate 3 0) = PlddtResult.score 0 ∧
    PlddtResult.score 0 ≠ PlddtResult.unavailable) :=
  get_average_plddt_unavailable_iff (fun _ => none) (fun _ => none) "" "pdb" 3
    (Or.inl (by decide)) (by decide)

/-- C5 (amended): a network error or an HTTP error status (4xx/5xx) leaves
the session state exactly unchanged — in particular a previously stored
`af_structure` record survives — stores no record, and shows the error
message; a 2xx response whose body fails to decode also stores nothing and
leaves state unchanged, but propagates an exception instead of showing the
flow's error message (see the counterexample). -/
theorem tab_fetch_failure_preserves_state (id : String) (s : SessionState)
    (status stOk : Nat) (body : Option String)
    (hid : id ≠ "") (h400 : 400 ≤ status) (h600 : status < 600) (hOk : stOk < 400) :
    tab_fetch_submit HttpOutcome.netError id s = ⟨s, true, false⟩ ∧
    tab_fetch_submit (HttpOutcome.response status body) id s = ⟨s, true, false⟩ ∧
    tab_fetch_submit (HttpOutcome.response stOk none) id s = ⟨s, false, true⟩ := by
  have h1 : raise_for_status_fails status = true := by
    simp only [raise_for_status_fails, Bool.and_eq_true, decide_eq_true_eq]
    exact ⟨h400, h600⟩
  have h2 : raise_for_status_fails stOk = false := by
    have hlt : ¬ (400 ≤ stOk) := by omega
    simp [raise_for_status_fails, hlt]
  refine ⟨?_, ?_, ?_⟩ <;> simp [tab_fetch_submit, hid, h1, h2]

/-- Witness for C5 at a 404 for a bad accession against a session holding a
prior record. -/
theorem tab_fetch_failure_preserves_state_witness :
    tab_fetch_submit HttpOutcome.netError "BADID0" priorFetchSession =
      ⟨priorFetchSession, true, false⟩ ∧
    tab_fetch_submit (HttpOutcome.response 404 none) "BADID0" priorFetchSession =
      ⟨priorFetchSession, true, false⟩ ∧
    tab_fetch_submit (HttpOutcome.response 200 none) "BADID0" priorFetchSession =
      ⟨priorFetchSession, false, true⟩ :=
  tab_fetch_failure_preserves_state "BADID0" priorFetchSession 404 200 none
    (by decide) (by decide) (by decide) (by decide)

/-- Counterexample for C5 as stated: a decode failure (2xx response,
undecodable body) does not surface the flow's error message — the exception
escapes — although the state, including the prior record, is unchanged. -/
theorem tab_fetch_decode_failure_no_message :
    (tab_fetch_submit (HttpOutcome.response 200 none) "Q8W3K0" priorFetchSession).errorShown
      = false ∧
    (tab_fetch_submit (HttpOutcome.response 200 none) "Q8W3K0" priorFetchSession).raised
      = true ∧
    (tab_fetch_submit (HttpOutcome.response 200 none) "Q8W3K0" priorFetchSession).state
      = priorFetchSession := by
  refine ⟨rfl, rfl, rfl⟩

/-- C6: a submission whose stripped sequence is longer than
MAX_SEQUENCE_LENGTH, or empty, triggers no network call, leaves the state
and the cache untouched, and shows a user-visible message. -/
theorem tab_predict_rejects_invalid_without_network (http : HttpOutcome)
    (cache : List (String × Option String)) (seq : String) (s : SessionState)
    (h : MAX_SEQUENCE_LENGTH < seq.length ∨ seq = "") :
    (tab_predict_submit http cache seq s).networkCalled = false ∧
    (tab_predict_submit http cache seq s).state = s ∧
    (tab_predict_submit http cache seq s).cache = cache ∧
    ((tab_predict_submit http cache seq s).warned = true ∨
     (tab_predict_submit http cache seq s).errored = true) := by
  by_cases hemp : seq = ""
  · unfold tab_predict_submit
    rw [if_pos hemp]
    exact ⟨rfl, rfl, rfl, Or.inl rfl⟩
  · rcases h with hlong | he
    · unfold tab_predict_submit
      rw [if_neg hemp, if_pos hlong]
      exact ⟨rfl, rfl, rfl, Or.inr rfl⟩
    · exact absurd he hemp

/-- Witness for C6: a 401-character sequence. -/
theorem tab_predict_rejects_invalid_without_network_witness :
    (tab_predict_submit HttpOutcome.netError [] longSeq emptySession).networkCalled = false ∧
    (tab_predict_submit HttpOutcome.netError [] longSeq emptySession).state = emptySession ∧
    (tab_predict_submit HttpOutcome.netError [] longSeq emptySession).cache = [] ∧
    ((tab_predict_submit HttpOutcome.netError [] longSeq emptySession).warned = true ∨
     (tab_predict_submit HttpOutcome.netError [] longSeq emptySession).errored = true) :=
  tab_predict_rejects_invalid_without_network HttpOutcome.netError [] longSeq emptySession
    (Or.inl (by
      simp only [longSeq, String.length_mk, List.length_replicate, MAX_SEQUENCE_LENGTH]
      omega))

/-- C7 (amended): each clear handler removes exactly its own flow's record
and leaves the other two flows' records and the sequence and accession
inputs untouched; the upload flow's clear additionally resets the pending
file selection (the uploader widget state), which the source must do lest
the still-selected file be immediately re-stored on the next rerun. -/
theorem clear_handlers_touch_only_own_record (s : SessionState) :
    (clear_predict_handler s).predicted_content = none ∧
    (clear_predict_handler s).uploaded_content = s.uploaded_content ∧
    (clear_predict_handler s).uploaded_format = s.uploaded_format ∧
    (clear_predict_handler s).af_structure = s.af_structure ∧
    (clear_predict_handler s).predict_sequence = s.predict_sequence ∧
    (clear_predict_handler s).uniprot_id = s.uniprot_id ∧
    (clear_predict_handler s).file_uploader = s.file_uploader ∧
    (clear_afdb_handler s).af_structure = none ∧
    (clear_afdb_handler s).predicted_content = s.predicted_content ∧
    (clear_afdb_handler s).uploaded_content = s.uploaded_content ∧
    (clear_afdb_handler s).uploaded_format = s.uploaded_format ∧
    (clear_afdb_handler s).predict_sequence = s.predict_sequence ∧
    (clear_afdb_handler s).uniprot_id = s.uniprot_id ∧
    (clear_afdb_handler s).file_uploader = s.file_uploader ∧
    (clear_upload_handler s).uploaded_content = none ∧
    (clear_upload_handler s).uploaded_format = none ∧
    (clear_upload_handler s).file_uploader = none ∧
    (clear_upload_handler s).predicted_content = s.predicted_content ∧
    (clear_upload_handler s).af_structure = s.af_structure ∧
    (clear_upload_handler s).predict_sequence = s.predict_sequence ∧
    (clear_upload_handler s).uniprot_id = s.uniprot_id :=
  ⟨rfl, rfl, rfl, rfl, rfl, rfl, rfl, rfl, rfl, rfl, rfl,
   rfl, rfl, rfl, rfl, rfl, rfl, rfl, rfl, rfl, rfl⟩

/-- Counterexample for C7 as stated: the upload flow's clear action resets
the pending file selection, so the input fields are not all left untouched. -/
theorem clear_upload_resets_file_selection :
    pendingUploadSession.file_uploader = some ⟨"structure.pdb", "DATA"⟩ ∧
    (clear_upload_handler pendingUploadSession).file_uploader = none :=
  ⟨rfl, rfl⟩

/-- C8 (amended): after an acquisition failure (a fold execution that
returns `None` with the error shown), no record is stored and the state is
exactly unchanged, but the failure result is memoized: a re-submission of
the same sequence — whatever the endpoint would now return — hits the cache,
performs no fresh acquisition call, and still stores nothing.  (As stated
the claim is false: retrying the same input does not perform a fresh call;
see the counterexample.  Recovery requires changing the input, since only a
cache miss reaches the endpoint.) -/
theorem tab_predict_retry_uses_cache (http http2 : HttpOutcome)
    (cache : List (String × Option String)) (seq : String) (s : SessionState)
    (hne : seq ≠ "") (hlen : seq.length ≤ MAX_SEQUENCE_LENGTH)
    (hmiss : cacheLookup cache seq = none)
    (hfail : fold_protein http = ⟨none, true, false⟩) :
    tab_predict_submit http cache seq s = ⟨s, (seq, none) :: cache, true, false, true, false⟩ ∧
    tab_predict_submit http2 ((seq, none) :: cache) seq s =
      ⟨s, (seq, none) :: cache, false, false, false, false⟩ := by
  have hnl : ¬ (MAX_SEQUENCE_LENGTH < seq.length) := Nat.not_lt.mpr hlen
  have hhit : cacheLookup ((seq, none) :: cache) seq = some none := by
    simp [cacheLookup]
  constructor
  · simp [tab_predict_submit, hne, hnl, hmiss, hfail, truthy]
  · simp [tab_predict_submit, hne, hnl, hhit, truthy]

/-- Witness for C8: failed attempt for sequence `A`, then a retry against a
now-healthy endpoint. -/
theorem tab_predict_retry_uses_cache_witness :
    tab_predict_submit HttpOutcome.netError [] "A" emptySession =
      ⟨emptySession, [("A", none)], true, false, true, false⟩ ∧
    tab_predict_submit (HttpOutcome.response 200 (some "PDBDATA")) [("A", none)] "A"
        emptySession =
      ⟨emptySession, [("A", none)], false, false, false, false⟩ :=
  tab_predict_retry_uses_cache HttpOutcome.netError (HttpOutcome.response 200 (some "PDBDATA"))
    [] "A" emptySession (by decide) (by decide) rfl rfl

/-- Counterexample for C8 as stated: after a failed attempt for sequence
`A`, re-submitting the same sequence makes no fresh acquisition call even
though the endpoint would now succeed, and no record is stored. -/
theorem tab_predict_retry_no_fresh_call :
    (tab_predict_submit HttpOutcome.netError [] "A" emptySession).errored = true ∧
    (tab_predict_submit HttpOutcome.netError [] "A" emptySession).state = emptySession ∧
    (tab_predict_submit (HttpOutcome.response 200 (some "PDBDATA"))
      (tab_predict_submit HttpOutcome.netError [] "A" emptySession).cache "A"
      (tab_predict_submit HttpOutcome.netError [] "A" emptySession).state).networkCalled
        = false ∧
    (tab_predict_submit (HttpOutcome.response 200 (some "PDBDATA"))
      (tab_predict_submit HttpOutcome.netError [] "A" emptySession).cache "A"
      (tab_predict_submit HttpOutcome.netError [] "A" emptySession).state).state.predicted_content
        = none := by
  refine ⟨rfl, rfl, rfl, rfl⟩

/-- C10: a fresh submission of a valid sequence against a 2xx response whose
decoded body is the empty string stores no record and shows no message: the
truthiness guard leaves the session state unchanged (the empty result is
still memoized, and the network call did happen). -/
theorem tab_predict_empty_body_stores_nothing_silently
    (cache : List (String × Option String)) (seq : String) (s : SessionState)
    (hne : seq ≠ "") (hlen : seq.length ≤ MAX_SEQUENCE_LENGTH)
    (hmiss : cacheLookup cache seq = none) :
    tab_predict_submit (HttpOutcome.response 200 (some "")) cache seq s =
      ⟨s, (seq, some "") :: cache, true, false, false, false⟩ := by
  have hnl : ¬ (MAX_SEQUENCE_LENGTH < seq.length) := Nat.not_lt.mpr hlen
  have ht : truthy (some "") = false := by decide
  have hf : fold_protein (HttpOutcome.response 200 (some "")) = ⟨some "", false, false⟩ := by
    decide
  simp [tab_predict_submit, hne, hnl, hmiss, hf, ht]

/-- Witness for C10 at sequence `A` with an empty cache. -/
theorem tab_predict_empty_body_stores_nothing_silently_witness :
    tab_predict_submit (HttpOutcome.response 200 (some "")) [] "A" emptySession =
      ⟨emptySession, [("A", some "")], true, false, false, false⟩ :=
  tab_predict_empty_body_stores_nothing_silently [] "A" emptySession
    (by decide) (by decide) rfl

theorem string_data_append (a b : String) : (a ++ b).data = a.data ++ b.data := by
  cases a
  cases b
  rfl

theorem string_data_mk (l : List Char) : (String.mk l).data = l := rfl

theorem hexOfBytes_take_two_mul (bs : List Nat) (k : Nat) :
    (hexOfBytes bs).take (2 * k) = hexOfBytes (bs.take k) := by
  induction bs generalizing k with
  | nil => simp [hexOfBytes]
  | cons b t ih =>
    cases k with
    | zero => simp [hexOfBytes]
    | succ k2 =>
      have h2 : 2 * (k2 + 1) = 2 * k2 + 1 + 1 := by ring
      rw [h2]
      simp only [hexOfBytes, byteToHex, List.cons_append, List.nil_append,
        List.take_succ_cons, ih]

theorem word32LEBytes_bound (n b : Nat) (hb : b ∈ word32LEBytes n) : b < 256 := by
  simp [word32LEBytes] at hb
  rcases hb with rfl | rfl | rfl | rfl <;> omega

theorem md5digestBytes_mem_lt (msg : List Nat) : ∀ b ∈ md5digestBytes msg, b < 256 := by
  intro b hb
  simp only [md5digestBytes] at hb
  rcases List.mem_append.mp hb with h | h
  · rcases List.mem_append.mp h with h2 | h2
    · rcases List.mem_append.mp h2 with h3 | h3
      · exact word32LEBytes_bound _ _ h3
      · exact word32LEBytes_bound _ _ h3
    · exact word32LEBytes_bound _ _ h2
  · exact word32LEBytes_bound _ _ h

theorem md5digestBytes_length (msg : List Nat) : (md5digestBytes msg).length = 16 := by
  simp [md5digestBytes, word32LEBytes]

theorem bytesToNat_lt_pow (bs : List Nat) (h : ∀ b ∈ bs, b < 256) :
    bytesToNat bs < 256 ^ bs.length := by
  induction bs with
  | nil => simp [bytesToNat]
  | cons b t ih =>
    have hb := h b (by simp)
    have ht := ih (fun x hx => h x (by simp [hx]))
    simp only [bytesToNat, List.length_cons]
    calc b + 256 * bytesToNat t < 256 * (bytesToNat t + 1) := by omega
      _ ≤ 256 * 256 ^ t.length := by
          have hs : bytesToNat t + 1 ≤ 256 ^ t.length := ht
          exact Nat.mul_le_mul_left 256 hs
      _ = 256 ^ (t.length + 1) := by ring

theorem bytesToNat_inj (l1 : List Nat) :
    ∀ l2, (∀ b ∈ l1, b < 256) → (∀ b ∈ l2, b < 256) →
      l1.length = l2.length → bytesToNat l1 = bytesToNat l2 → l1 = l2 := by
  induction l1 with
  | nil =>
    intro l2 _ _ hlen _
    cases l2 with
    | nil => rfl
    | cons b t => simp at hlen
  | cons a t ih =>
    intro l2 h1 h2 hlen heq
    cases l2 with
    | nil => simp at hlen
    | cons b t2 =>
      have ha := h1 a (by simp)
      have hb := h2 b (by simp)
      simp only [bytesToNat] at heq
      have hab : a = b := by omega
      have htl : bytesToNat t = bytesToNat t2 := by omega
      subst hab
      have hrec := ih t2 (fun x hx => h1 x (by simp [hx])) (fun x hx => h2 x (by simp [hx]))
        (by simpa using hlen) htl
      rw [hrec]

/-- The truncated digest holds 48 bits, so over the infinitely many content
strings two distinct ones must share a key for a fixed label and format. -/
theorem exists_viewer_key_collision :
    ∃ T1 T2 : String, T1 ≠ T2 ∧
      make_viewer_key "predict" T1 "pdb" = make_viewer_key "predict" T2 "pdb" := by
  obtain ⟨T1, T2, hne, hfeq⟩ :=
    Finite.exists_ne_map_eq_of_infinite
      (fun T : String =>
        (⟨bytesToNat ((md5digestBytes (utf8EncodeStr ("pdb" ++ ":" ++ T))).take 6), by
          have hlt := bytesToNat_lt_pow
            ((md5digestBytes (utf8EncodeStr ("pdb" ++ ":" ++ T))).take 6)
            (fun b hb => md5digestBytes_mem_lt _ b (List.take_subset _ _ hb))
          have hlen6 :
              ((md5digestBytes (utf8EncodeStr ("pdb" ++ ":" ++ T))).take 6).length = 6 := by
            simp [List.length_take, md5digestBytes_length]
          rw [hlen6] at hlt
          exact hlt⟩ : Fin (256 ^ 6)))
  refine ⟨T1, T2, hne, ?_⟩
  have hbytes : (md5digestBytes (utf8EncodeStr ("pdb" ++ ":" ++ T1))).take 6
      = (md5digestBytes (utf8EncodeStr ("pdb" ++ ":" ++ T2))).take 6 := by
    apply bytesToNat_inj
    · exact fun b hb => md5digestBytes_mem_lt _ b (List.take_subset _ _ hb)
    · exact fun b hb => md5digestBytes_mem_lt _ b (List.take_subset _ _ hb)
    · simp [List.length_take, md5digestBytes_length]
    · exact congrArg Fin.val hfeq
  have hdig : viewer_digest T1 "pdb" = viewer_digest T2 "pdb" := by
    unfold viewer_digest
    rw [show (12 : Nat) = 2 * 6 from rfl, hexOfBytes_take_two_mul, hexOfBytes_take_two_mul,
      hbytes]
  unfold make_viewer_key
  rw [hdig]

/-- C4 (amended): `make_viewer_key` is deterministic — identical calls give
the identical key — and for a fixed label and format two contents whose
truncated digests differ give different keys; but distinct contents do not
always give distinct keys: the key depends on the content only through a
12-hex-character (48-bit) digest, so collisions necessarily exist (see the
counterexample). -/
theorem make_viewer_key_deterministic (label T T1 T2 fmt : String)
    (hd : viewer_digest T1 fmt ≠ viewer_digest T2 fmt) :
    make_viewer_key label T fmt = make_viewer_key label T fmt ∧
    make_viewer_key label T1 fmt ≠ make_viewer_key label T2 fmt := by
  refine ⟨rfl, ?_⟩
  intro heq
  apply hd
  have hdata := congrArg String.data heq
  simp only [make_viewer_key, string_data_append, string_data_mk] at hdata
  exact List.append_cancel_left hdata

set_option maxRecDepth 100000 in
/-- Witness for C4: two one-character contents with distinct truncated
digests (the digests are evaluated through the MD5 embedding). -/
theorem make_viewer_key_deterministic_witness :
    make_viewer_key "predict" "HELLO" "pdb" = make_viewer_key "predict" "HELLO" "pdb" ∧
    make_viewer_key "predict" "x" "pdb" ≠ make_viewer_key "predict" "y" "pdb" :=
  make_viewer_key_deterministic "predict" "HELLO" "x" "y" "pdb" (by decide)

/-- Counterexample for C4 as stated: content-injectivity for a fixed label
and format is false — two distinct contents with equal keys exist, by
counting the 48-bit truncated digests. -/
theorem make_viewer_key_not_content_injective :
    ¬ (∀ label T1 T2 fmt : String, T1 ≠ T2 →
        make_viewer_key label T1 fmt ≠ make_viewer_key label T2 fmt) := by
  intro hall
  obtain ⟨T1, T2, hne, heq⟩ := exists_viewer_key_collision
  exact hall "predict" T1 T2 "pdb" hne heq

/-- C9: distinct namespace labels give distinct keys for the same content
and format: the label appears literally between fixed separators in the
key, and the digest suffix is identical, so key equality forces label
equality. -/
theorem make_viewer_key_label_injective (p1 p2 content fmt : String) (h : p1 ≠ p2) :
    make_viewer_key p1 content fmt ≠ make_viewer_key p2 content fmt := by
  intro heq
  apply h
  have hdata := congrArg String.data heq
  simp only [make_viewer_key, string_data_append, string_data_mk] at hdata
  have h1 := List.append_cancel_right hdata
  have h2 := List.append_cancel_right h1
  have h3 := List.append_cancel_right h2
  have h4 := List.append_cancel_right h3
  have h5 := List.append_cancel_left h4
  exact congrArg String.mk h5

/-- Witness for C9 at the labels of the predict and the AlphaFold flows. -/
theorem make_viewer_key_label_injective_witness :
    make_viewer_key "predict" "CONTENT" "pdb" ≠ make_viewer_key "afdb" "CONTENT" "pdb" :=
  make_viewer_key_label_injective "predict" "afdb" "CONTENT" "pdb" (by decide)
